import Mathlib

/-!
Verification of the Havana University chat mediation layer against its
natural-language specification.

The repository's storage schema (SQL migrations), its frontend pages
(student chat page and admin dashboard) and its shared type declarations
are embedded directly from the source files under src/.  The backend core
(MessageRouter, EscalationController, ConnectionRegistry, the Flask app
and the database helpers) is not part of the provided sources; those
operations are modelled from the specification text and are marked as
such in their doc comments.
-/

namespace Havana

/-- Message roles, from the chat_history schema enum and the shared
frontend type declarations: ai, human (the student), human_operator
(the admin). -/
inductive Role where
  | ai
  | human
  | human_operator
deriving DecidableEq

/-- Connection roles for ephemeral bindings: student or admin. -/
inductive ConnRole where
  | student
  | admin
deriving DecidableEq

/-- A chat row: identity plus the human-intervention flag.  Embedded from
the shared Chat type declaration; created_at and soft-delete are not
needed by any claim. -/
structure Chat where
  id : Nat
  is_human_enabled : Bool
deriving DecidableEq

/-- A persisted chat message, from the shared Message type declaration
and the chat_history schema. -/
structure Msg where
  chat_id : Nat
  role : Role
  message : String
deriving DecidableEq

/-- A row of the bookings table from
src/backend/db/migrations/003_create_bookings_table.sql:
id, date, time, a nullable chat_id (NULL means the slot is free) and a
nullable deleted_at (NULL means the row is live). -/
structure BookingRow where
  id : Nat
  date : String
  time : String
  chat_id : Option Nat
  deleted_at : Option Nat
deriving DecidableEq

/-- MySQL collision semantics for the schema's unique key
unique_booking_slot (date, time, deleted_at): two rows collide exactly
when every indexed column compares equal, and a NULL indexed column never
compares equal to anything — so rows whose deleted_at is NULL never
collide with any row.  date and time are NOT NULL columns, so they
compare by plain equality. -/
def slotKeyConflict (r s : BookingRow) : Bool :=
  r.date == s.date && r.time == s.time &&
    match r.deleted_at, s.deleted_at with
    | some a, some b => a == b
    | _, _ => false

/-- A list of rows is accepted by the bookings table's unique key iff no
two distinct rows collide under MySQL unique-index semantics. -/
def uniqueBookingSlotOk : List BookingRow → Bool
  | [] => true
  | r :: rs => rs.all (fun s => !slotKeyConflict r s) && uniqueBookingSlotOk rs

/-- A booking row is non-deleted (live) iff its deleted_at is NULL. -/
def nonDeleted (r : BookingRow) : Bool := r.deleted_at == none

/-- The invariant stated by the spec: at most one non-deleted booking row
exists per (date, time) pair — no two distinct live rows share a slot. -/
def atMostOnePerSlot (rows : List BookingRow) : Prop :=
  rows.Pairwise (fun r s =>
    nonDeleted r = true → nonDeleted s = true →
    r.date = s.date → r.time = s.time → False)

instance atMostOnePerSlot_decidable (rows : List BookingRow) :
    Decidable (atMostOnePerSlot rows) := by
  unfold atMostOnePerSlot
  exact List.instDecidablePairwise rows

/-- First of two live rows occupying the same slot: the bookings table's
unique key accepts both because their deleted_at columns are NULL. -/
def dupRow1 : BookingRow :=
  { id := 1, date := "2025-10-10", time := "0900", chat_id := some 7, deleted_at := none }

/-- Second live row on the same (date, time) slot as dupRow1. -/
def dupRow2 : BookingRow :=
  { id := 2, date := "2025-10-10", time := "0900", chat_id := some 8, deleted_at := none }

/-- A row is a live, free slot matching the requested (date, time). -/
def freeMatch (r : BookingRow) (d t : String) : Bool :=
  r.date == d && r.time == t && nonDeleted r && r.chat_id == none

/-- Result of the storage collaborator's atomic slot claim. -/
inductive ClaimResult where
  | booked (slot : BookingRow)
  | slotUnavailable
deriving DecidableEq

/-- Modelled from the spec: the storage collaborator's atomic
claimSlot((date, time), chatId) operation of section 6 — the backend
database code is not under src/.  It re-checks availability at claim
time: it scans the table for a live free row with the requested date and
time; if one exists it sets that row's chat_id (the compare-and-swap),
otherwise it fails with SlotUnavailable and leaves the table unchanged. -/
def claimSlot : List BookingRow → String → String → Nat → List BookingRow × ClaimResult
  | [], _, _, _ => ([], .slotUnavailable)
  | r :: rs, d, t, c =>
    if freeMatch r d t then
      ({ r with chat_id := some c } :: rs, .booked { r with chat_id := some c })
    else
      (r :: (claimSlot rs d t c).1, (claimSlot rs d t c).2)

/-- Modelled from the spec: the storage collaborator's
listFreeSlots operation of section 6 (backend database code not under
src/), restricted to the availability filter: the live rows whose
chat_id is NULL. -/
def listFreeSlots (rows : List BookingRow) : List BookingRow :=
  rows.filter (fun r => nonDeleted r && r.chat_id == none)

/-- A concrete bookings table for the C2 witness: one live free slot. -/
def rowsW : List BookingRow :=
  [{ id := 3, date := "2025-10-10", time := "0900", chat_id := none, deleted_at := none }]

/-- An ephemeral connection binding: (connectionId, chatId, role). -/
structure Binding where
  connId : Nat
  chatId : Nat
  role : ConnRole
deriving DecidableEq

/-- The removal step of a student bind: drop the connection's bindings
to any chat other than the one being bound. -/
def priorRemoved (reg : List Binding) (c ch : Nat) : List Binding :=
  reg.filter (fun b => !(b.connId == c && b.chatId != ch))

/-- Modelled from the spec: ConnectionRegistry.bind of section 4.1 — the
ConnectionRegistry implementation is not under src/.  Adds or replaces
the binding; for role student, any prior binding of that connection to a
different chat is removed first; re-binding an already present triple
leaves the registry unchanged. -/
def bind (reg : List Binding) (c ch : Nat) (role : ConnRole) : List Binding :=
  let reg' :=
    match role with
    | .student => priorRemoved reg c ch
    | .admin => reg
  if reg'.contains ⟨c, ch, role⟩ then reg' else reg' ++ [⟨c, ch, role⟩]

/-- Modelled from the spec: ConnectionRegistry.unbind of section 4.1
(implementation not under src/).  Removes the connection's bindings; if a
chat id is given, only the bindings to that chat. -/
def unbind (reg : List Binding) (c : Nat) (ch : Option Nat) : List Binding :=
  reg.filter (fun b => !(b.connId == c && (ch == none || ch == some b.chatId)))

/-- Modelled from the spec: ConnectionRegistry.isAdminConnected of
section 4.1 (implementation not under src/): true iff at least one admin
binding exists for the chat. -/
def isAdminConnected (reg : List Binding) (ch : Nat) : Bool :=
  reg.any (fun b => b.chatId == ch && b.role == ConnRole.admin)

/-- The registry holds a student binding of the connection to the chat. -/
def hasStudentBinding (reg : List Binding) (c ch : Nat) : Bool :=
  reg.contains ⟨c, ch, ConnRole.student⟩

/-- A concrete registry for the C8 witness: the connection is student on
another chat and an unrelated admin observes yet another chat. -/
def regW : List Binding :=
  [⟨1, 5, ConnRole.student⟩, ⟨2, 6, ConnRole.admin⟩]

/-- A tool invocation signalled by the reply engine (README: the
human_escalation, get_booking_slots and book_time_slot tools). -/
inductive ToolCall where
  | human_escalation
  | get_booking_slots
  | book_time_slot (date time : String)
deriving DecidableEq

/-- One reply of the reply engine: the text of the ai message plus the
tool invocations, in the order the engine returned them. -/
structure AiReply where
  text : String
  tools : List ToolCall
deriving DecidableEq

/-- Delivery target of an outbound event: the requesting connection
alone, or every connection bound to a chat (broadcast). -/
inductive Target where
  | toConn (connId : Nat)
  | toChat (chatId : Nat)
deriving DecidableEq

/-- Outbound events of section 6, plus the ChatNotFound error surfaced
to a single requesting connection. -/
inductive OutEvent where
  | chat_created (chat_id : Nat)
  | student_connected (chat_id : Nat) (chat : Chat) (history : List Msg)
      (is_admin_connected : Bool)
  | admin_connected (chat_id : Nat) (chat : Chat) (history : List Msg)
  | new_message (m : Msg)
  | escalation_triggered (chat_id : Nat) (is_human_enabled : Bool)
  | human_enabled_changed (chat_id : Nat) (is_human_enabled : Bool)
  | admin_status_changed (chat_id : Nat) (is_admin_connected : Bool)
  | booking_confirmed (chat_id : Nat) (slot : BookingRow)
  | error_chat_not_found (chat_id : Nat)
deriving DecidableEq

/-- An emission: a target together with the event delivered to it. -/
abbrev Emit := Target × OutEvent

/-- The server's state: the chats table, the global append-only message
log (per-chat histories are its filtered views), the bookings table, the
connection registry, and the next chat id to allocate. -/
structure ServerState where
  chats : List Chat
  history : List Msg
  bookings : List BookingRow
  registry : List Binding
  nextChatId : Nat
deriving DecidableEq

/-- Modelled from the spec: the storage collaborator's getChat of
section 6 (backend database code not under src/). -/
def getChat (s : ServerState) (ch : Nat) : Option Chat :=
  s.chats.find? (fun chat => chat.id == ch)

/-- Modelled from the spec: the storage collaborator's getHistory of
section 6 (backend database code not under src/): the ordered messages
of one chat. -/
def chatHistory (s : ServerState) (ch : Nat) : List Msg :=
  s.history.filter (fun m => m.chat_id == ch)

/-- Modelled from the spec: the storage collaborator's setHumanEnabled
of section 6 (backend database code not under src/). -/
def setHumanEnabled (s : ServerState) (ch : Nat) (b : Bool) : ServerState :=
  { s with chats := s.chats.map (fun chat =>
      if chat.id == ch then { chat with is_human_enabled := b } else chat) }

/-- Modelled from the spec: MessageRouter.onAdminDisconnect of section
4.3 (the backend router is not under src/): unbinds the connection from
the chat; if no admin bindings remain, broadcasts admin_status_changed
with is_admin_connected false. -/
def onAdminDisconnect (s : ServerState) (c ch : Nat) : ServerState × List Emit :=
  let reg' := unbind s.registry c (some ch)
  ({ s with registry := reg' },
   if isAdminConnected reg' ch then []
   else [(Target.toChat ch, OutEvent.admin_status_changed ch false)])

/-- A server state for the C6 counterexample: one chat, no bindings. -/
def stEmptyReg : ServerState :=
  { chats := [⟨1, false⟩], history := [], bookings := [], registry := [], nextChatId := 2 }

/-- A registry for the C6 witness: two admins observe chat 1; the
disconnect of one of them must stay silent. -/
def stTwoAdmins : ServerState :=
  { chats := [⟨1, false⟩], history := [], bookings := [],
    registry := [⟨10, 1, ConnRole.admin⟩, ⟨11, 1, ConnRole.admin⟩], nextChatId := 2 }

/-- Modelled from the spec: MessageRouter.onStudentConnect of section
4.3 (the backend router is not under src/).  Without a chat id it
creates a new Chat via storage and binds the connection as student to
it, replying with chat_created and the connection payload; with a chat
id it loads the chat, fails with ChatNotFound — delivered to the
requesting connection only — if the chat is absent, else binds the
connection and replies with chat, history and the admin presence. -/
def onStudentConnect (s : ServerState) (c : Nat) (chatId : Option Nat) :
    ServerState × List Emit :=
  match chatId with
  | none =>
    let chat : Chat := ⟨s.nextChatId, false⟩
    let reg' := bind s.registry c chat.id ConnRole.student
    ({ s with chats := s.chats ++ [chat], nextChatId := s.nextChatId + 1,
              registry := reg' },
     [(Target.toConn c, OutEvent.chat_created chat.id),
      (Target.toConn c, OutEvent.student_connected chat.id chat []
        (isAdminConnected reg' chat.id))])
  | some ch =>
    match getChat s ch with
    | none => (s, [(Target.toConn c, OutEvent.error_chat_not_found ch)])
    | some chat =>
      let reg' := bind s.registry c ch ConnRole.student
      ({ s with registry := reg' },
       [(Target.toConn c, OutEvent.student_connected ch chat (chatHistory s ch)
          (isAdminConnected reg' ch))])

/-- Modelled from the spec: MessageRouter.onAdminConnect of section 4.3
(the backend router is not under src/): binds the connection as admin,
broadcasts the admin presence, replies with chat and history. -/
def onAdminConnect (s : ServerState) (c ch : Nat) : ServerState × List Emit :=
  match getChat s ch with
  | none => (s, [(Target.toConn c, OutEvent.error_chat_not_found ch)])
  | some chat =>
    ({ s with registry := bind s.registry c ch ConnRole.admin },
     [(Target.toChat ch, OutEvent.admin_status_changed ch true),
      (Target.toConn c, OutEvent.admin_connected ch chat (chatHistory s ch))])

/-- Modelled from the spec: the EscalationController's handling of one
tool intent (section 4.2; the backend controller is not under src/).
Escalation persists is_human_enabled true and emits escalation_triggered;
a booking intent claims the slot atomically, emitting booking_confirmed
on success and changing nothing on failure (the failure result goes back
to the reply engine, which composes the corrective text of the ai
message); listing slots reads storage and changes no state. -/
def applyTool (s : ServerState) (ch : Nat) : ToolCall → ServerState × List Emit
  | .human_escalation =>
    (setHumanEnabled s ch true,
     [(Target.toChat ch, OutEvent.escalation_triggered ch true)])
  | .get_booking_slots => (s, [])
  | .book_time_slot d t =>
    match claimSlot s.bookings d t ch with
    | (rows', .booked slot) =>
      ({ s with bookings := rows' },
       [(Target.toChat ch, OutEvent.booking_confirmed ch slot)])
    | (_, .slotUnavailable) => (s, [])

/-- Tool intents are processed in the order the reply engine returned
them, threading the state and concatenating the emissions. -/
def applyTools (s : ServerState) (ch : Nat) : List ToolCall → ServerState × List Emit
  | [] => (s, [])
  | t :: ts =>
    let r1 := applyTool s ch t
    let r2 := applyTools r1.1 ch ts
    (r2.1, r1.2 ++ r2.2)

/-- Modelled from the spec: MessageRouter.onStudentMessage of section
4.3 (the backend router is not under src/).  Requires an active student
binding, else a logged no-op.  Persists the human message and broadcasts
new_message.  If the chat is AI_ACTIVE it invokes the reply engine on
the full ordered history, routes each tool intent to the controller and
then persists and broadcasts the resulting ai message; if HUMAN_ACTIVE,
no engine invocation occurs. -/
def onStudentMessage (gen : List Msg → AiReply) (s : ServerState) (c ch : Nat)
    (text : String) : ServerState × List Emit :=
  if hasStudentBinding s.registry c ch then
    match getChat s ch with
    | none => (s, [])
    | some chat =>
      let humanMsg : Msg := ⟨ch, Role.human, text⟩
      let s1 : ServerState := { s with history := s.history ++ [humanMsg] }
      if chat.is_human_enabled then
        (s1, [(Target.toChat ch, OutEvent.new_message humanMsg)])
      else
        let reply := gen (chatHistory s1 ch)
        let r2 := applyTools s1 ch reply.tools
        let aiMsg : Msg := ⟨ch, Role.ai, reply.text⟩
        ({ r2.1 with history := r2.1.history ++ [aiMsg] },
         [(Target.toChat ch, OutEvent.new_message humanMsg)] ++ r2.2 ++
           [(Target.toChat ch, OutEvent.new_message aiMsg)])
  else (s, [])

/-- Modelled from the spec: MessageRouter.onAdminMessage of section 4.3
(the backend router is not under src/): requires chat state HUMAN_ACTIVE,
rejected as a no-op otherwise; persists a human_operator message and
broadcasts new_message. -/
def onAdminMessage (s : ServerState) (c ch : Nat) (text : String) :
    ServerState × List Emit :=
  match getChat s ch with
  | none => (s, [])
  | some chat =>
    if chat.is_human_enabled then
      let m : Msg := ⟨ch, Role.human_operator, text⟩
      ({ s with history := s.history ++ [m] },
       [(Target.toChat ch, OutEvent.new_message m)])
    else (s, [])

/-- Modelled from the spec: MessageRouter.onToggleHumanEnabled of
section 4.3 (the backend router is not under src/): delegates to the
EscalationController transition and emits human_enabled_changed. -/
def onToggleHumanEnabled (s : ServerState) (ch : Nat) (enabled : Bool) :
    ServerState × List Emit :=
  match getChat s ch with
  | none => (s, [])
  | some _ =>
    (setHumanEnabled s ch enabled,
     [(Target.toChat ch, OutEvent.human_enabled_changed ch enabled)])

/-- The inbound events of section 6, as handled by the router. -/
inductive InEvent where
  | student_connect (c : Nat) (chat_id : Option Nat)
  | student_message (c ch : Nat) (text : String)
  | admin_connect (c ch : Nat)
  | admin_disconnect_from_chat (c ch : Nat)
  | admin_message (c ch : Nat) (text : String)
  | toggle_human_enabled (ch : Nat) (enabled : Bool)
deriving DecidableEq

/-- One serialized processing step of the router: under the per-chat
serialization discipline of section 5, the events touching a chat are
handled one at a time by these operations. -/
def applyEvent (gen : List Msg → AiReply) (s : ServerState) :
    InEvent → ServerState × List Emit
  | .student_connect c ch => onStudentConnect s c ch
  | .student_message c ch text => onStudentMessage gen s c ch text
  | .admin_connect c ch => onAdminConnect s c ch
  | .admin_disconnect_from_chat c ch => onAdminDisconnect s c ch
  | .admin_message c ch text => onAdminMessage s c ch text
  | .toggle_human_enabled ch b => onToggleHumanEnabled s ch b

/-- Events the frontend pages emit over the socket, from
src/frontend/app/student-chat/page.tsx and the admin dashboard page. -/
inductive ClientEmit where
  | student_connect (chat_id : Option Nat)
  | student_message (chat_id : Nat) (message : String)
  | admin_connect (chat_id : Nat)
  | admin_disconnect_from_chat (chat_id : Nat)
  | admin_message (chat_id : Nat) (message : String)
  | toggle_human_enabled (chat_id : Nat) (is_enabled : Bool)
deriving DecidableEq

/-- ECMAScript truthiness of the nullable numeric currentChatId state:
null is falsy and so is the number 0. -/
def jsTruthy : Option Nat → Bool
  | none => false
  | some n => n != 0

/-- The characters removed by the ECMAScript String trim method: the
WhiteSpace production (tab, vertical tab, form feed, space, no-break
space, zero-width no-break space and every Unicode Space_Separator code
point \u2014 ogham space mark, the en-quad through hair-space range
U+2000..U+200A, narrow no-break space, medium mathematical space and
ideographic space) plus the LineTerminator production (line feed,
carriage return, line separator, paragraph separator). -/
def jsIsWhitespace (ch : Char) : Bool :=
  ch == ' ' || ch == '\t' || ch == '\n' || ch == '\r' || ch == '\x0b' ||
  ch == '\x0c' || ch == '\u00A0' || ch == '\u1680' ||
  (0x2000 ≤ ch.toNat && ch.toNat ≤ 0x200A) ||
  ch == '\u202F' || ch == '\u205F' || ch == '\u3000' ||
  ch == '\u2028' || ch == '\u2029' || ch == '\uFEFF'

/-- ECMAScript String trim: drop leading and trailing white space. -/
def jsTrim (str : String) : String :=
  String.mk (((str.data.dropWhile jsIsWhitespace).reverse.dropWhile
    jsIsWhitespace).reverse)

/-- StudentChatPage.handleSendMessage from
src/frontend/app/student-chat/page.tsx: if the trimmed input is falsy or
no chat is selected it returns early; otherwise it emits one
student_message with the current chat id and the untrimmed input, then
clears the input.  Returns the emitted events and the new input value. -/
def studentHandleSendMessage (inputMessage : String) (currentChatId : Option Nat) :
    List ClientEmit × String :=
  if jsTrim inputMessage == "" || !jsTruthy currentChatId then ([], inputMessage)
  else ([ClientEmit.student_message (currentChatId.getD 0) inputMessage], "")

/-- AdminPage.handleSendMessage from the admin dashboard page
(src/frontend/app/layout.tsx bundle): returns early when the trimmed
input is falsy, no chat is selected, or isHumanEnabled is false;
otherwise emits one admin_message and clears the input. -/
def adminHandleSendMessage (inputMessage : String) (currentChatId : Option Nat)
    (isHumanEnabled : Bool) : List ClientEmit × String :=
  if jsTrim inputMessage == "" || !jsTruthy currentChatId || !isHumanEnabled then
    ([], inputMessage)
  else ([ClientEmit.admin_message (currentChatId.getD 0) inputMessage], "")

/-- AdminPage.handleSelectChat from the admin dashboard page
(src/frontend/app/layout.tsx bundle): if a chat is currently selected it
first emits admin_disconnect_from_chat for it, then selects the new chat
and emits admin_connect for it.  Returns the emitted events in order and
the new selection. -/
def adminHandleSelectChat (currentChatId : Option Nat) (chatId : Nat) :
    List ClientEmit × Option Nat :=
  ((if jsTruthy currentChatId then
      [ClientEmit.admin_disconnect_from_chat (currentChatId.getD 0)]
    else []) ++ [ClientEmit.admin_connect chatId], some chatId)

/-- The events emitted by a sequence of chat selections on the admin
dashboard, starting from the given selection. -/
def runSelects : Option Nat → List Nat → List ClientEmit
  | _, [] => []
  | cur, n :: rest => (adminHandleSelectChat cur n).1 ++ runSelects (some n) rest

/-- Fold step computing which chats an emitted event trace leaves the
admin attached to: admin_connect attaches, admin_disconnect_from_chat
detaches one matching attachment, other events are irrelevant. -/
def attachedStep (acc : List Nat) : ClientEmit → List Nat
  | .admin_connect ch => acc ++ [ch]
  | .admin_disconnect_from_chat ch => acc.erase ch
  | _ => acc

/-- The chats still attached (admin_connect without a matching
admin_disconnect_from_chat) after an event trace. -/
def attachedAfter (init : List Nat) (evs : List ClientEmit) : List Nat :=
  evs.foldl attachedStep init

/-- The message role is human_operator. -/
def isOpRole : Role → Bool
  | Role.human_operator => true
  | _ => false

/-- The human_operator-role messages a chat's history holds. -/
def opMsgsFor (ch : Nat) (l : List Msg) : List Msg :=
  l.filter (fun m => m.chat_id == ch && isOpRole m.role)

/-- The chat is HUMAN_ACTIVE and a student is bound, for the C3 witness. -/
def stHuman : ServerState :=
  { chats := [⟨1, true⟩], history := [], bookings := [],
    registry := [⟨7, 1, ConnRole.student⟩], nextChatId := 2 }

/-- A concrete reply engine that never calls tools. -/
def genW : List Msg → AiReply := fun _ => { text := "hello", tools := [] }

/-- A second concrete reply engine, with different text and an
escalation tool call, to witness engine-independence. -/
def genW2 : List Msg → AiReply :=
  fun _ => { text := "other", tools := [ToolCall.human_escalation] }

/-- The chat is AI_ACTIVE and a student is bound, for the C4 and C5
witnesses. -/
def stAi : ServerState :=
  { chats := [⟨1, false⟩], history := [], bookings := [],
    registry := [⟨7, 1, ConnRole.student⟩], nextChatId := 2 }

/-- Claim C1: the claim says the bookings table's unique key by itself
enforces at most one non-deleted booking per (date, time).  It does not:
because deleted_at is nullable and MySQL unique indexes never treat NULL
as equal to NULL, the table accepts two live rows with identical
(date, time).  This theorem exhibits the failing input: both duplicate
rows pass the unique key, both are non-deleted, they are distinct rows,
and they share their (date, time) pair — the spec's invariant fails. -/
theorem C1_unique_key_admits_duplicate_live_slot :
    uniqueBookingSlotOk [dupRow1, dupRow2] = true ∧
    nonDeleted dupRow1 = true ∧ nonDeleted dupRow2 = true ∧
    dupRow1 ≠ dupRow2 ∧
    dupRow1.date = dupRow2.date ∧ dupRow1.time = dupRow2.time ∧
    ¬ atMostOnePerSlot [dupRow1, dupRow2] := by
  decide

theorem claimSlot_of_no_free_match (d t : String) (c : Nat) :
    ∀ rows : List BookingRow, rows.all (fun r => !freeMatch r d t) = true →
    claimSlot rows d t c = (rows, .slotUnavailable) := by
  intro rows h
  induction rows with
  | nil => simp [claimSlot]
  | cons r rs ih =>
    simp only [List.all_cons, Bool.and_eq_true, Bool.not_eq_true'] at h
    simp [claimSlot, h.1, ih h.2]

/-- Claim C2: if some live free row for (date, time) appears in an
earlier listFreeSlots listing, then of two claim intents for that slot
the first succeeds — returning a booked slot carrying that date, time
and the claiming chat — and the second, re-checking availability against
the updated table, fails with SlotUnavailable.  The spec's at-most-one
live row per slot invariant is consumed as a precondition, as section 3
prescribes. -/
theorem C2_second_claim_gets_slot_unavailable
    (rows : List BookingRow) (d t : String) (c1 c2 : Nat)
    (hinv : atMostOnePerSlot rows)
    (hfree : (listFreeSlots rows).any (fun r => r.date == d && r.time == t) = true) :
    ∃ slot rows1,
      claimSlot rows d t c1 = (rows1, .booked slot) ∧
      slot.date = d ∧ slot.time = t ∧ slot.chat_id = some c1 ∧
      (claimSlot rows1 d t c2).2 = .slotUnavailable := by
  induction rows with
  | nil => simp [listFreeSlots] at hfree
  | cons r rs ih =>
    by_cases hm : freeMatch r d t = true
    · -- the head row is the live free matching slot: the first claim takes it
      have hr : r.date = d ∧ r.time = t ∧ nonDeleted r = true := by
        simp only [freeMatch, Bool.and_eq_true, beq_iff_eq] at hm
        exact ⟨hm.1.1.1, hm.1.1.2, hm.1.2⟩
      refine ⟨{ r with chat_id := some c1 }, { r with chat_id := some c1 } :: rs,
        by simp [claimSlot, hm], hr.1, hr.2.1, rfl, ?_⟩
      -- the second claim finds no live free row: the claimed head is taken,
      -- and the invariant rules out a second live row for the slot in the tail
      have hno : ({ r with chat_id := some c1 } :: rs).all (fun u => !freeMatch u d t) = true := by
        simp only [List.all_cons, Bool.and_eq_true, Bool.not_eq_true']
        constructor
        · simp [freeMatch]
        · rw [List.all_eq_true]
          intro u hu
          rw [Bool.not_eq_true']
          by_contra hfu
          rw [Bool.not_eq_false] at hfu
          simp only [freeMatch, Bool.and_eq_true, beq_iff_eq] at hfu
          rcases List.pairwise_cons.mp hinv with ⟨hhead, _⟩
          exact hhead u hu hr.2.2 hfu.1.2 (hr.1.trans hfu.1.1.1.symm)
            (hr.2.1.trans hfu.1.1.2.symm)
      rw [claimSlot_of_no_free_match d t c2 _ hno]
    · -- the head row does not match: both claims recurse into the tail
      have hfree' : (listFreeSlots rs).any (fun u => u.date == d && u.time == t) = true := by
        simp only [listFreeSlots, List.filter_cons] at hfree
        by_cases hk : (nonDeleted r && r.chat_id == none) = true
        · rw [if_pos hk] at hfree
          simp only [List.any_cons, Bool.or_eq_true] at hfree
          rcases hfree with hhead | htail
          · exfalso
            apply hm
            simp only [freeMatch, Bool.and_eq_true] at hhead ⊢
            rw [Bool.and_eq_true] at hk
            exact ⟨⟨hhead, hk.1⟩, hk.2⟩
          · exact htail
        · rwa [if_neg hk] at hfree
      rcases ih (List.Pairwise.of_cons hinv) hfree' with
        ⟨slot, rs1, hclaim, hd, ht, hc, hsecond⟩
      refine ⟨slot, r :: rs1, ?_, hd, ht, hc, ?_⟩
      · simp [claimSlot, hm, hclaim]
      · simp [claimSlot, hm, hsecond]

theorem C2_second_claim_gets_slot_unavailable_witness :
    atMostOnePerSlot rowsW ∧
    (listFreeSlots rowsW).any (fun r => r.date == "2025-10-10" && r.time == "0900") = true ∧
    ∃ slot rows1,
      claimSlot rowsW "2025-10-10" "0900" 4 = (rows1, .booked slot) ∧
      slot.date = "2025-10-10" ∧ slot.time = "0900" ∧ slot.chat_id = some 4 ∧
      (claimSlot rows1 "2025-10-10" "0900" 5).2 = .slotUnavailable :=
  ⟨by decide, by decide,
    C2_second_claim_gets_slot_unavailable rowsW "2025-10-10" "0900" 4 5
      (by decide) (by decide)⟩

theorem bind_student_eq (reg : List Binding) (c ch : Nat) :
    bind reg c ch ConnRole.student =
      if (priorRemoved reg c ch).contains ⟨c, ch, ConnRole.student⟩ then
        priorRemoved reg c ch
      else priorRemoved reg c ch ++ [⟨c, ch, ConnRole.student⟩] := rfl

theorem mem_bind_self (reg : List Binding) (c ch : Nat) (role : ConnRole) :
    (⟨c, ch, role⟩ : Binding) ∈ bind reg c ch role := by
  unfold bind
  cases role <;> simp only
  all_goals {
    split
    · next h => exact List.mem_of_elem_eq_true h
    · exact List.mem_append_right _ (List.mem_singleton.mpr rfl)
  }

theorem mem_priorRemoved_chat (reg : List Binding) (c ch : Nat) (b : Binding)
    (hb : b ∈ priorRemoved reg c ch) (hbc : b.connId = c) : b.chatId = ch := by
  have := List.of_mem_filter hb
  simp only [Bool.not_eq_true', Bool.and_eq_false_iff, beq_eq_false_iff_ne,
    bne_eq_false_iff_eq] at this
  rcases this with hne | heq
  · exact absurd hbc hne
  · exact heq

/-- Claim C8: after bind(connectionId, chatId, student) the registry
holds the student binding; every binding the connection still holds is
to that chat (prior bindings to a different chat were removed); and
re-binding the same triple is idempotent, leaving the registry
unchanged. -/
theorem C8_bind_student_replaces_and_is_idempotent (reg : List Binding) (c ch : Nat) :
    (⟨c, ch, ConnRole.student⟩ : Binding) ∈ bind reg c ch ConnRole.student ∧
    (∀ b ∈ bind reg c ch ConnRole.student, b.connId = c → b.chatId = ch) ∧
    bind (bind reg c ch ConnRole.student) c ch ConnRole.student =
      bind reg c ch ConnRole.student := by
  have honly : ∀ b ∈ bind reg c ch ConnRole.student, b.connId = c → b.chatId = ch := by
    intro b hb hbc
    rw [bind_student_eq] at hb
    split at hb
    · exact mem_priorRemoved_chat reg c ch b hb hbc
    · rcases List.mem_append.mp hb with hfil | hsing
      · exact mem_priorRemoved_chat reg c ch b hfil hbc
      · rw [List.mem_singleton.mp hsing]
  refine ⟨mem_bind_self reg c ch ConnRole.student, honly, ?_⟩
  have hfix : priorRemoved (bind reg c ch ConnRole.student) c ch =
      bind reg c ch ConnRole.student := by
    unfold priorRemoved
    rw [List.filter_eq_self]
    intro b hb
    simp only [Bool.not_eq_true', Bool.and_eq_false_iff, beq_eq_false_iff_ne,
      bne_eq_false_iff_eq]
    by_cases hbc : b.connId = c
    · exact Or.inr (honly b hb hbc)
    · exact Or.inl hbc
  have hmem : (bind reg c ch ConnRole.student).contains
      (⟨c, ch, ConnRole.student⟩ : Binding) = true :=
    List.elem_eq_true_of_mem (mem_bind_self reg c ch ConnRole.student)
  rw [bind_student_eq (bind reg c ch ConnRole.student) c ch, hfix, hmem, if_pos rfl]

theorem C8_bind_student_replaces_and_is_idempotent_witness :
    (⟨1, 9, ConnRole.student⟩ : Binding) ∈ bind regW 1 9 ConnRole.student ∧
    (∀ b ∈ bind regW 1 9 ConnRole.student, b.connId = 1 → b.chatId = 9) ∧
    bind (bind regW 1 9 ConnRole.student) 1 9 ConnRole.student =
      bind regW 1 9 ConnRole.student :=
  C8_bind_student_replaces_and_is_idempotent regW 1 9

/-- Claim C6 counterexample: the claim says the admin_status_changed
broadcast with is_admin_connected false fires if and only if the unbind
performed by onAdminDisconnect removes the last admin binding for the
chat.  On a registry with no admin bindings at all, the unbind removes
nothing — the registry is unchanged and held no admin binding for the
chat — yet the broadcast still fires, so the only-if direction fails. -/
theorem C6_counterexample_disconnect_without_binding :
    unbind stEmptyReg.registry 5 (some 1) = stEmptyReg.registry ∧
    isAdminConnected stEmptyReg.registry 1 = false ∧
    (onAdminDisconnect stEmptyReg 5 1).2 =
      [(Target.toChat 1, OutEvent.admin_status_changed 1 false)] := by
  decide

/-- Claim C6, amended: onAdminDisconnect broadcasts admin_status_changed
with is_admin_connected false exactly when no admin binding for the chat
remains after its unbind; in particular the broadcast never fires while
another connection still holds an admin binding for the chat, and it
does fire when the disconnecting connection held an admin binding and no
other admin binding for the chat remains. -/
theorem C6_admin_disconnect_broadcast_iff_none_remain (s : ServerState) (c ch : Nat) :
    ((onAdminDisconnect s c ch).2.contains
        (Target.toChat ch, OutEvent.admin_status_changed ch false) =
      !isAdminConnected (unbind s.registry c (some ch)) ch) ∧
    (∀ b ∈ s.registry, b.role = ConnRole.admin → b.chatId = ch → b.connId ≠ c →
      (onAdminDisconnect s c ch).2 = []) := by
  constructor
  · unfold onAdminDisconnect
    by_cases h : isAdminConnected (unbind s.registry c (some ch)) ch
    · simp [h]
    · simp [h]
  · intro b hb hrole hchat hconn
    unfold onAdminDisconnect
    have hkeep : b ∈ unbind s.registry c (some ch) := by
      unfold unbind
      apply List.mem_filter.mpr
      refine ⟨hb, ?_⟩
      simp only [Bool.not_eq_true', Bool.and_eq_false_iff, beq_eq_false_iff_ne]
      exact Or.inl hconn
    have hadm : isAdminConnected (unbind s.registry c (some ch)) ch = true := by
      unfold isAdminConnected
      rw [List.any_eq_true]
      exact ⟨b, hkeep, by simp [hchat, hrole]⟩
    simp [hadm]

theorem C6_admin_disconnect_broadcast_iff_none_remain_witness :
    ((⟨11, 1, ConnRole.admin⟩ : Binding) ∈ stTwoAdmins.registry) ∧
    (onAdminDisconnect stTwoAdmins 10 1).2 = [] :=
  ⟨by decide,
    (C6_admin_disconnect_broadcast_iff_none_remain stTwoAdmins 10 1).2
      ⟨11, 1, ConnRole.admin⟩ (by decide) rfl rfl (by decide)⟩

theorem applyTool_history (s : ServerState) (ch : Nat) (t : ToolCall) :
    ((applyTool s ch t).1).history = s.history := by
  cases t with
  | human_escalation => rfl
  | get_booking_slots => rfl
  | book_time_slot d time =>
    unfold applyTool
    rcases h : claimSlot s.bookings d time ch with ⟨rows', res⟩
    cases res <;> simp [h]

theorem applyTools_history (ch : Nat) :
    ∀ (ts : List ToolCall) (s : ServerState),
    ((applyTools s ch ts).1).history = s.history := by
  intro ts
  induction ts with
  | nil => intro s; rfl
  | cons t ts ih =>
    intro s
    unfold applyTools
    rw [ih ((applyTool s ch t).1), applyTool_history]

theorem opMsgsFor_append (ch : Nat) (l ms : List Msg) :
    opMsgsFor ch (l ++ ms) = opMsgsFor ch l ++ opMsgsFor ch ms := by
  unfold opMsgsFor
  exact List.filter_append _ _

theorem opMsgsFor_single_nonop (ch : Nat) (m : Msg)
    (h : m.chat_id ≠ ch ∨ isOpRole m.role = false) : opMsgsFor ch [m] = [] := by
  unfold opMsgsFor
  rcases h with h | h
  · simp [List.filter, beq_eq_false_iff_ne.mpr h]
  · simp [List.filter, h]

theorem opMsgsFor_append_one_nonop (ch : Nat) (l : List Msg) (m : Msg)
    (h : m.chat_id ≠ ch ∨ isOpRole m.role = false) :
    opMsgsFor ch (l ++ [m]) = opMsgsFor ch l := by
  rw [opMsgsFor_append, opMsgsFor_single_nonop ch m h, List.append_nil]

theorem opMsgsFor_append_two_nonop (ch : Nat) (l : List Msg) (m1 m2 : Msg)
    (h1 : isOpRole m1.role = false) (h2 : isOpRole m2.role = false) :
    opMsgsFor ch ((l ++ [m1]) ++ [m2]) = opMsgsFor ch l := by
  rw [opMsgsFor_append_one_nonop ch _ m2 (Or.inr h2),
    opMsgsFor_append_one_nonop ch l m1 (Or.inr h1)]

/-- Claim C3: while a chat is HUMAN_ACTIVE (is_human_enabled true),
processing a student message persists exactly the human-role message,
broadcasts it as new_message, and nothing else happens: in particular no
ai-role message is persisted and the result does not depend on the reply
engine at all — the engine is never consulted. -/
theorem C3_human_active_suspends_ai (gen gen2 : List Msg → AiReply)
    (s : ServerState) (c ch : Nat) (text : String) (chat : Chat)
    (hb : hasStudentBinding s.registry c ch = true)
    (hc : getChat s ch = some chat)
    (hh : chat.is_human_enabled = true) :
    onStudentMessage gen s c ch text =
      ({ s with history := s.history ++ [⟨ch, Role.human, text⟩] },
       [(Target.toChat ch, OutEvent.new_message ⟨ch, Role.human, text⟩)]) ∧
    onStudentMessage gen s c ch text = onStudentMessage gen2 s c ch text := by
  have key : ∀ g : List Msg → AiReply,
      onStudentMessage g s c ch text =
        ({ s with history := s.history ++ [⟨ch, Role.human, text⟩] },
         [(Target.toChat ch, OutEvent.new_message ⟨ch, Role.human, text⟩)]) := by
    intro g
    unfold onStudentMessage
    rw [hb, if_pos rfl, hc]
    simp only [hh, if_true]
  exact ⟨key gen, (key gen).trans (key gen2).symm⟩

theorem C3_human_active_suspends_ai_witness :
    hasStudentBinding stHuman.registry 7 1 = true ∧
    getChat stHuman 1 = some ⟨1, true⟩ ∧
    (onStudentMessage genW stHuman 7 1 "hi" =
      ({ stHuman with history := stHuman.history ++ [⟨1, Role.human, "hi"⟩] },
       [(Target.toChat 1, OutEvent.new_message ⟨1, Role.human, "hi"⟩)]) ∧
     onStudentMessage genW stHuman 7 1 "hi" = onStudentMessage genW2 stHuman 7 1 "hi") :=
  ⟨by decide, by decide,
    C3_human_active_suspends_ai genW genW2 stHuman 7 1 "hi" ⟨1, true⟩
      (by decide) (by decide) rfl⟩

/-- Claim C4: while a chat is AI_ACTIVE (is_human_enabled false), an
onAdminMessage call for it is rejected as a no-op — the state is
unchanged and nothing is emitted; consequently no inbound event persists
a human_operator-role message for that chat during that step; and the
admin dashboard's own send handler emits nothing and keeps the input
when isHumanEnabled is false. -/
theorem C4_ai_active_rejects_admin_message (s : ServerState) (c ch : Nat)
    (text : String) (chat : Chat)
    (hc : getChat s ch = some chat)
    (hh : chat.is_human_enabled = false) :
    onAdminMessage s c ch text = (s, []) ∧
    (∀ (gen : List Msg → AiReply) (e : InEvent),
      opMsgsFor ch (((applyEvent gen s e).1).history) = opMsgsFor ch s.history) ∧
    (∀ (input : String) (chatId : Option Nat),
      adminHandleSendMessage input chatId false = ([], input)) := by
  have hadm : onAdminMessage s c ch text = (s, []) := by
    unfold onAdminMessage
    rw [hc]
    simp only [hh, Bool.false_eq_true, if_false]
  refine ⟨hadm, ?_, ?_⟩
  · intro gen e
    cases e with
    | student_connect c' chid =>
      cases chid with
      | none => rfl
      | some ch' =>
        cases hget : getChat s ch' with
        | none => simp [applyEvent, onStudentConnect, hget]
        | some chat' => simp [applyEvent, onStudentConnect, hget]
    | student_message c' ch' text' =>
      by_cases hb : hasStudentBinding s.registry c' ch' = true
      · cases hget : getChat s ch' with
        | none => simp [applyEvent, onStudentMessage, hb, hget]
        | some chat' =>
          by_cases hen : chat'.is_human_enabled = true
          · show opMsgsFor ch ((onStudentMessage gen s c' ch' text').1).history = _
            unfold onStudentMessage
            rw [hb, if_pos rfl, hget]
            simp only [hen, if_true]
            apply opMsgsFor_append_one_nonop
            exact Or.inr rfl
          · show opMsgsFor ch ((onStudentMessage gen s c' ch' text').1).history = _
            unfold onStudentMessage
            rw [hb, if_pos rfl, hget]
            simp only [hen, Bool.false_eq_true, if_false]
            rw [applyTools_history]
            apply opMsgsFor_append_two_nonop <;> rfl
      · show opMsgsFor ch ((onStudentMessage gen s c' ch' text').1).history = _
        unfold onStudentMessage
        rw [Bool.not_eq_true] at hb
        rw [hb]
        simp
    | admin_connect c' ch' =>
      cases hget : getChat s ch' with
      | none => simp [applyEvent, onAdminConnect, hget]
      | some chat' => simp [applyEvent, onAdminConnect, hget]
    | admin_disconnect_from_chat c' ch' => rfl
    | admin_message c' ch' text' =>
      cases hget : getChat s ch' with
      | none => simp [applyEvent, onAdminMessage, hget]
      | some chat' =>
        by_cases hen : chat'.is_human_enabled = true
        · have hne : ch' ≠ ch := by
            intro heq
            rw [heq, hc] at hget
            injection hget with hchat
            rw [hchat, hen] at hh
            exact Bool.noConfusion hh
          show opMsgsFor ch ((onAdminMessage s c' ch' text').1).history = _
          unfold onAdminMessage
          rw [hget]
          simp only [hen, if_true]
          apply opMsgsFor_append_one_nonop
          exact Or.inl hne
        · show opMsgsFor ch ((onAdminMessage s c' ch' text').1).history = _
          unfold onAdminMessage
          rw [hget]
          rw [Bool.not_eq_true] at hen
          simp only [hen, Bool.false_eq_true, if_false]
    | toggle_human_enabled ch' b =>
      cases hget : getChat s ch' with
      | none => simp [applyEvent, onToggleHumanEnabled, hget]
      | some chat' => simp [applyEvent, onToggleHumanEnabled, hget, setHumanEnabled]
  · intro input chatId
    unfold adminHandleSendMessage
    simp

theorem C4_ai_active_rejects_admin_message_witness :
    getChat stAi 1 = some ⟨1, false⟩ ∧
    onAdminMessage stAi 9 1 "take over" = (stAi, []) ∧
    opMsgsFor 1 (((applyEvent genW stAi (InEvent.admin_message 9 1 "x")).1).history) =
      opMsgsFor 1 stAi.history ∧
    adminHandleSendMessage "hello" (some 1) false = ([], "hello") :=
  ⟨by decide,
    (C4_ai_active_rejects_admin_message stAi 9 1 "take over" ⟨1, false⟩
      (by decide) rfl).1,
    (C4_ai_active_rejects_admin_message stAi 9 1 "take over" ⟨1, false⟩
      (by decide) rfl).2.1 genW (InEvent.admin_message 9 1 "x"),
    (C4_ai_active_rejects_admin_message stAi 9 1 "take over" ⟨1, false⟩
      (by decide) rfl).2.2 "hello" (some 1)⟩

/-- Claim C5: every serialized router step only appends to the persisted
message log — the existing sequence is never reordered — and a student
message processed while AI_ACTIVE appends its human message and the
resulting ai message contiguously, so the ai reply never interleaves
with another message of the same chat within the step. -/
theorem C5_history_append_only_and_contiguous (gen : List Msg → AiReply)
    (s : ServerState) (e : InEvent) :
    (∃ tail, ((applyEvent gen s e).1).history = s.history ++ tail) ∧
    (∀ (c ch : Nat) (text : String) (chat : Chat),
      e = InEvent.student_message c ch text →
      hasStudentBinding s.registry c ch = true →
      getChat s ch = some chat →
      chat.is_human_enabled = false →
      ((applyEvent gen s e).1).history =
        s.history ++ [⟨ch, Role.human, text⟩,
          ⟨ch, Role.ai, (gen (chatHistory
            { s with history := s.history ++ [⟨ch, Role.human, text⟩] } ch)).text⟩]) := by
  constructor
  · cases e with
    | student_connect c' chid =>
      cases chid with
      | none => exact ⟨[], by simp [applyEvent, onStudentConnect]⟩
      | some ch' =>
        cases hget : getChat s ch' with
        | none => exact ⟨[], by simp [applyEvent, onStudentConnect, hget]⟩
        | some chat' => exact ⟨[], by simp [applyEvent, onStudentConnect, hget]⟩
    | student_message c' ch' text' =>
      by_cases hb : hasStudentBinding s.registry c' ch' = true
      · cases hget : getChat s ch' with
        | none => exact ⟨[], by simp [applyEvent, onStudentMessage, hb, hget]⟩
        | some chat' =>
          by_cases hen : chat'.is_human_enabled = true
          · refine ⟨[⟨ch', Role.human, text'⟩], ?_⟩
            show ((onStudentMessage gen s c' ch' text').1).history = _
            unfold onStudentMessage
            rw [hb, if_pos rfl, hget]
            simp only [hen, if_true]
          · refine ⟨[⟨ch', Role.human, text'⟩,
              ⟨ch', Role.ai, (gen (chatHistory
                { s with history := s.history ++ [⟨ch', Role.human, text'⟩] } ch')).text⟩], ?_⟩
            show ((onStudentMessage gen s c' ch' text').1).history = _
            unfold onStudentMessage
            rw [hb, if_pos rfl, hget]
            simp only [hen, Bool.false_eq_true, if_false]
            rw [applyTools_history]
            simp
      · refine ⟨[], ?_⟩
        show ((onStudentMessage gen s c' ch' text').1).history = _
        unfold onStudentMessage
        rw [Bool.not_eq_true] at hb
        rw [hb]
        simp
    | admin_connect c' ch' =>
      cases hget : getChat s ch' with
      | none => exact ⟨[], by simp [applyEvent, onAdminConnect, hget]⟩
      | some chat' => exact ⟨[], by simp [applyEvent, onAdminConnect, hget]⟩
    | admin_disconnect_from_chat c' ch' =>
      exact ⟨[], by simp [applyEvent, onAdminDisconnect]⟩
    | admin_message c' ch' text' =>
      cases hget : getChat s ch' with
      | none => exact ⟨[], by simp [applyEvent, onAdminMessage, hget]⟩
      | some chat' =>
        by_cases hen : chat'.is_human_enabled = true
        · refine ⟨[⟨ch', Role.human_operator, text'⟩], ?_⟩
          show ((onAdminMessage s c' ch' text').1).history = _
          unfold onAdminMessage
          rw [hget]
          simp only [hen, if_true]
        · refine ⟨[], ?_⟩
          show ((onAdminMessage s c' ch' text').1).history = _
          unfold onAdminMessage
          rw [hget]
          rw [Bool.not_eq_true] at hen
          simp only [hen, Bool.false_eq_true, if_false, List.append_nil]
    | toggle_human_enabled ch' b =>
      cases hget : getChat s ch' with
      | none => exact ⟨[], by simp [applyEvent, onToggleHumanEnabled, hget]⟩
      | some chat' =>
        exact ⟨[], by simp [applyEvent, onToggleHumanEnabled, hget, setHumanEnabled]⟩
  · intro c ch text chat he hb hget hen
    subst he
    show ((onStudentMessage gen s c ch text).1).history = _
    unfold onStudentMessage
    rw [hb, if_pos rfl, hget]
    simp only [hen, Bool.false_eq_true, if_false]
    rw [applyTools_history]
    simp

theorem C5_history_append_only_and_contiguous_witness :
    hasStudentBinding stAi.registry 7 1 = true ∧
    getChat stAi 1 = some ⟨1, false⟩ ∧
    (∃ tail, ((applyEvent genW stAi (InEvent.student_message 7 1 "q")).1).history =
      stAi.history ++ tail) ∧
    ((applyEvent genW stAi (InEvent.student_message 7 1 "q")).1).history =
      stAi.history ++ [⟨1, Role.human, "q"⟩,
        ⟨1, Role.ai, (genW (chatHistory
          { stAi with history := stAi.history ++ [⟨1, Role.human, "q"⟩] } 1)).text⟩] :=
  ⟨by decide, by decide,
    (C5_history_append_only_and_contiguous genW stAi (InEvent.student_message 7 1 "q")).1,
    (C5_history_append_only_and_contiguous genW stAi
      (InEvent.student_message 7 1 "q")).2 7 1 "q" ⟨1, false⟩ rfl (by decide)
        (by decide) rfl⟩

/-- Claim C7: onStudentConnect with a chat id absent from storage fails
with ChatNotFound: the state is untouched and the single error event is
targeted at the requesting connection alone — nothing is broadcast; and
onStudentConnect with no chat id creates a fresh Chat with AI active,
binds the connection as student to it, and tells the requester the new
chat id via chat_created. -/
theorem C7_connect_not_found_and_create (s : ServerState) (c ch : Nat)
    (hnone : getChat s ch = none) :
    ((onStudentConnect s c (some ch)).1 = s ∧
     (onStudentConnect s c (some ch)).2 =
       [(Target.toConn c, OutEvent.error_chat_not_found ch)] ∧
     (∀ tg ev, (tg, ev) ∈ (onStudentConnect s c (some ch)).2 → tg = Target.toConn c)) ∧
    (((onStudentConnect s c none).1).chats = s.chats ++ [⟨s.nextChatId, false⟩] ∧
     hasStudentBinding ((onStudentConnect s c none).1).registry c s.nextChatId = true ∧
     (Target.toConn c, OutEvent.chat_created s.nextChatId) ∈
       (onStudentConnect s c none).2) := by
  refine ⟨⟨?_, ?_, ?_⟩, ?_, ?_, ?_⟩
  · simp [onStudentConnect, hnone]
  · simp [onStudentConnect, hnone]
  · intro tg ev hmem
    simp [onStudentConnect, hnone] at hmem
    exact hmem.1
  · rfl
  · exact List.elem_eq_true_of_mem (mem_bind_self s.registry c s.nextChatId ConnRole.student)
  · simp [onStudentConnect]

theorem C7_connect_not_found_and_create_witness :
    getChat stEmptyReg 99 = none ∧
    ((onStudentConnect stEmptyReg 4 (some 99)).1 = stEmptyReg ∧
     (onStudentConnect stEmptyReg 4 (some 99)).2 =
       [(Target.toConn 4, OutEvent.error_chat_not_found 99)] ∧
     (∀ tg ev, (tg, ev) ∈ (onStudentConnect stEmptyReg 4 (some 99)).2 →
       tg = Target.toConn 4)) ∧
    (((onStudentConnect stEmptyReg 4 none).1).chats =
       stEmptyReg.chats ++ [⟨stEmptyReg.nextChatId, false⟩] ∧
     hasStudentBinding ((onStudentConnect stEmptyReg 4 none).1).registry 4
       stEmptyReg.nextChatId = true ∧
     (Target.toConn 4, OutEvent.chat_created stEmptyReg.nextChatId) ∈
       (onStudentConnect stEmptyReg 4 none).2) :=
  ⟨by decide,
    (C7_connect_not_found_and_create stEmptyReg 4 99 (by decide)).1,
    (C7_connect_not_found_and_create stEmptyReg 4 99 (by decide)).2⟩

/-- Claim C9: the student page's send handler is a no-op — no event is
emitted and the input is kept — when no chat is selected or the input is
empty or whitespace-only; otherwise it emits exactly one student_message
with the current chat id and the input text, then clears the input. -/
theorem C9_student_send_guard (input : String) (ch : Nat) (hpos : 0 < ch) :
    studentHandleSendMessage input none = ([], input) ∧
    (jsTrim input = "" → studentHandleSendMessage input (some ch) = ([], input)) ∧
    (jsTrim input ≠ "" →
      studentHandleSendMessage input (some ch) =
        ([ClientEmit.student_message ch input], "")) := by
  refine ⟨?_, ?_, ?_⟩
  · unfold studentHandleSendMessage
    simp [jsTruthy]
  · intro h
    unfold studentHandleSendMessage
    simp [h]
  · intro h
    unfold studentHandleSendMessage
    have htr : jsTruthy (some ch) = true := by
      unfold jsTruthy
      simp
      omega
    simp [htr, beq_eq_false_iff_ne.mpr h]

theorem C9_student_send_guard_witness :
    (0 < 3) ∧
    studentHandleSendMessage "  hello " none = ([], "  hello ") ∧
    (jsTrim "   " = "" →
      studentHandleSendMessage "   " (some 3) = ([], "   ")) ∧
    (jsTrim "  hello " ≠ "" →
      studentHandleSendMessage "  hello " (some 3) =
        ([ClientEmit.student_message 3 "  hello "], "")) :=
  ⟨by decide, (C9_student_send_guard "  hello " 3 (by decide)).1,
    (C9_student_send_guard "   " 3 (by decide)).2.1,
    (C9_student_send_guard "  hello " 3 (by decide)).2.2⟩

theorem attachedAfter_append (a : List Nat) (e1 e2 : List ClientEmit) :
    attachedAfter a (e1 ++ e2) = attachedAfter (attachedAfter a e1) e2 := by
  unfold attachedAfter
  exact List.foldl_append _ _ _ _

theorem runSelects_attached_single :
    ∀ (sel : List Nat) (cur : Option Nat) (a : List Nat),
    (∀ n ∈ sel, 0 < n) →
    (cur = none → a = []) →
    (∀ k, cur = some k → 0 < k ∧ a = [k]) →
    (attachedAfter a (runSelects cur sel)).length ≤ 1 := by
  intro sel
  induction sel with
  | nil =>
    intro cur a hpos hnone hsome
    cases cur with
    | none => simp [runSelects, attachedAfter, hnone rfl]
    | some k =>
      rcases hsome k rfl with ⟨_, ha⟩
      simp [runSelects, attachedAfter, ha]
  | cons n rest ih =>
    intro cur a hpos hnone hsome
    have hn : 0 < n := hpos n (List.mem_cons_self n rest)
    have hstep : attachedAfter a (adminHandleSelectChat cur n).1 = [n] := by
      cases cur with
      | none =>
        rw [hnone rfl]
        simp [adminHandleSelectChat, jsTruthy, attachedAfter, attachedStep]
      | some k =>
        rcases hsome k rfl with ⟨hk, ha⟩
        rw [ha]
        have htr : jsTruthy (some k) = true := by
          unfold jsTruthy
          simp
          omega
        simp [adminHandleSelectChat, htr, attachedAfter, attachedStep, List.erase]
    show (attachedAfter a ((adminHandleSelectChat cur n).1 ++ runSelects (some n) rest)).length ≤ 1
    rw [attachedAfter_append, hstep]
    exact ih (some n) [n] (fun m hm => hpos m (List.mem_cons_of_mem n hm))
      (fun h => by cases h)
      (fun k hk => by
        rw [Option.some.injEq] at hk
        rw [← hk]
        exact ⟨hn, rfl⟩)

/-- Claim C10: selecting a chat on the admin dashboard while another is
selected always emits admin_disconnect_from_chat for the old chat before
admin_connect for the new one, and over any sequence of selections with
real (positive) chat ids the trace of emitted events leaves the admin
client attached — an admin_connect without a matching disconnect — to at
most one chat at any time. -/
theorem C10_admin_attached_to_at_most_one_chat (sel : List Nat)
    (hpos : ∀ n ∈ sel, 0 < n) :
    (∀ c n, 0 < c →
      adminHandleSelectChat (some c) n =
        ([ClientEmit.admin_disconnect_from_chat c, ClientEmit.admin_connect n],
         some n)) ∧
    (attachedAfter [] (runSelects none sel)).length ≤ 1 := by
  constructor
  · intro c n hc
    have htr : jsTruthy (some c) = true := by
      unfold jsTruthy
      simp
      omega
    simp [adminHandleSelectChat, htr]
  · exact runSelects_attached_single sel none [] hpos (fun _ => rfl)
      (fun k hk => by cases hk)

theorem C10_admin_attached_to_at_most_one_chat_witness :
    (∀ n ∈ [1, 2, 1], 0 < n) ∧
    (∀ c n, 0 < c →
      adminHandleSelectChat (some c) n =
        ([ClientEmit.admin_disconnect_from_chat c, ClientEmit.admin_connect n],
         some n)) ∧
    (attachedAfter [] (runSelects none [1, 2, 1])).length ≤ 1 :=
  ⟨by decide, C10_admin_attached_to_at_most_one_chat [1, 2, 1] (by decide)⟩

end Havana

